import Mathlib

/-!
Verification of `app/gunicorn.conf.py`: an environment-driven server
configuration plus three lifecycle hook callbacks that log fixed strings.

The configuration module is embedded as a pure loader
`loadConfig : (String → Option String) → Nat → Option ServerConfig`
taking the process environment (a partial map from variable names to values)
and the detected CPU count. A `none` result models the startup crash that a
failing `int(...)` coercion produces. The three hook functions are embedded
as pure state transformers on a record carrying a logger, where the logger
accumulates the emitted lines.
-/

/-- Log severity levels of the hosting runtime's logger. -/
inductive LogLevel where
  | debug
  | info
  | warning
  | error
  | critical
deriving DecidableEq, Repr

/-- One emitted log line: a severity level and the message text. -/
structure LogLine where
  level : LogLevel
  msg : String
deriving DecidableEq, Repr

/-- A logger, modelled as the list of lines emitted so far. -/
structure Logger where
  lines : List LogLine
deriving DecidableEq, Repr

/-- `log.info(msg)`: append one info-level line to the log. -/
def Logger.info (l : Logger) (msg : String) : Logger :=
  { lines := l.lines ++ [{ level := LogLevel.info, msg := msg }] }

/-- The server object handed to `when_ready`: a logger plus payload data
(standing for all the other attributes a real server object carries). -/
structure Server where
  log : Logger
  app_name : String
deriving DecidableEq, Repr

/-- The worker object handed to `worker_int` / `worker_abort`: a logger plus
payload data. -/
structure Worker where
  log : Logger
  pid : Int
deriving DecidableEq, Repr

/-- Value of a digit character. -/
def digitVal (c : Char) : Nat :=
  c.toNat - ('0').toNat

/-- Numeric value of a list of decimal digit characters. -/
def digitsVal (cs : List Char) : Nat :=
  List.foldl (fun acc c => acc * 10 + digitVal c) 0 cs

/-- Python's `int(s)` on a string: strips surrounding whitespace, allows an
optional single leading sign, then requires a nonempty run of decimal
digits; any other input raises `ValueError`, modelled as `none`. -/
def pyInt (s : String) : Option Int :=
  let stripped :=
    ((s.toList.dropWhile Char.isWhitespace).reverse.dropWhile
      Char.isWhitespace).reverse
  match stripped with
  | [] => none
  | c :: rest =>
    if c = '-' then
      if rest ≠ [] ∧ rest.all Char.isDigit then
        some (-(Int.ofNat (digitsVal rest)))
      else none
    else if c = '+' then
      if rest ≠ [] ∧ rest.all Char.isDigit then
        some (Int.ofNat (digitsVal rest))
      else none
    else
      if (c :: rest).all Char.isDigit then
        some (Int.ofNat (digitsVal (c :: rest)))
      else none

/-- `workers = int(os.getenv("GUNICORN_WORKERS", multiprocessing.cpu_count() * 2 + 1))`:
if the variable is set, coerce its string value; otherwise the default is
already an integer and the coercion is the identity. -/
def loadWorkers (env : String → Option String) (cpu : Nat) : Option Int :=
  match env "GUNICORN_WORKERS" with
  | some s => pyInt s
  | none => some ((Int.ofNat cpu) * 2 + 1)

/-- `threads = int(os.getenv("GUNICORN_THREADS", 2))`. -/
def loadThreads (env : String → Option String) : Option Int :=
  match env "GUNICORN_THREADS" with
  | some s => pyInt s
  | none => some 2

/-- The flat option mapping assembled by `gunicorn.conf.py`, one field per
module-level option. -/
structure ServerConfig where
  bind : String
  backlog : Int
  workers : Int
  worker_class : String
  threads : Int
  worker_connections : Int
  timeout : Int
  keepalive : Int
  limit_request_line : Int
  limit_request_fields : Int
  limit_request_field_size : Int
  proc_name : String
  daemon : Bool
  pidfile : Option String
  umask : Int
  user : Option String
  group : Option String
  tmp_upload_dir : Option String
  accesslog : String
  errorlog : String
  loglevel : String
  access_log_format : String
deriving DecidableEq, Repr

/-- The assembled configuration given already-coerced worker and thread
counts; every other option is the fixed constant from the source file. -/
def mkConfig (w t : Int) : ServerConfig where
  bind := "0.0.0.0:5000"
  backlog := 2048
  workers := w
  worker_class := "gthread"
  threads := t
  worker_connections := 1000
  timeout := 30
  keepalive := 2
  limit_request_line := 4096
  limit_request_fields := 100
  limit_request_field_size := 8190
  proc_name := "fastfood_gunicorn"
  daemon := false
  pidfile := none
  umask := 0
  user := none
  group := none
  tmp_upload_dir := none
  accesslog := "-"
  errorlog := "-"
  loglevel := "info"
  access_log_format := "%(h)s %(l)s %(u)s %(t)s \"%(r)s\" %(s)s %(b)s \"%(f)s\" \"%(a)s\""

/-- Executing the module `gunicorn.conf.py` under environment `env` with
`cpu` detected CPUs: both coercions must succeed, otherwise the module
raises at import time (modelled as `none`). -/
def loadConfig (env : String → Option String) (cpu : Nat) :
    Option ServerConfig :=
  match loadWorkers env cpu, loadThreads env with
  | some w, some t => some (mkConfig w t)
  | _, _ => none

/-- `def when_ready(server): server.log.info("FastFood Ordering System is ready to serve requests")`. -/
def when_ready (server : Server) : Server :=
  { server with
    log := server.log.info ("FastFood Ordering System is ready to serve requests") }

/-- `def worker_int(worker): worker.log.info("Worker received INT or QUIT signal")`. -/
def worker_int (worker : Worker) : Worker :=
  { worker with
    log := worker.log.info ("Worker received INT or QUIT signal") }

/-- `def worker_abort(worker): worker.log.info("Worker received SIGABRT signal")`. -/
def worker_abort (worker : Worker) : Worker :=
  { worker with
    log := worker.log.info ("Worker received SIGABRT signal") }

/-- `sub` occurs in `s` as a contiguous substring. -/
def strContains (s sub : String) : Prop :=
  ∃ a b, s = a ++ sub ++ b

/-- The listed substrings all occur in `s`, in the given order, without
overlapping. -/
def containsInOrder (s : String) : List String → Prop
  | [] => True
  | sub :: rest => ∃ a b, s = a ++ sub ++ b ∧ containsInOrder b rest

/-- The empty environment: no variables set. -/
def envEmpty : String → Option String := fun _ => none

/-- Environment with `GUNICORN_WORKERS=4` and `GUNICORN_THREADS=8`. -/
def envFourEight : String → Option String := fun k =>
  if k = "GUNICORN_WORKERS" then some "4"
  else if k = "GUNICORN_THREADS" then some "8"
  else none

/-- Environment with only `GUNICORN_THREADS=0`. -/
def envThreadsZero : String → Option String := fun k =>
  if k = "GUNICORN_THREADS" then some "0" else none

/-- Any `loadConfig` success is `mkConfig` of the two coerced counts. -/
theorem loadConfig_eq_some {env : String → Option String} {cpu : Nat}
    {cfg : ServerConfig} (h : loadConfig env cpu = some cfg) :
    ∃ w t, loadWorkers env cpu = some w ∧ loadThreads env = some t ∧
      cfg = mkConfig w t := by
  unfold loadConfig at h
  cases hw : loadWorkers env cpu with
  | none => rw [hw] at h; cases h
  | some w =>
    cases ht : loadThreads env with
    | none => rw [hw, ht] at h; cases h
    | some t =>
      rw [hw, ht] at h
      exact ⟨w, t, rfl, rfl, (Option.some.inj h).symm⟩

/-- C5: for every server argument, the ready-hook appends exactly one
log line, it is at info level, and its text contains the substring
"ready to serve requests". -/
theorem when_ready_one_info_line (s : Server) :
    ∃ m, (when_ready s).log.lines =
        s.log.lines ++ [{ level := LogLevel.info, msg := m }] ∧
      strContains m "ready to serve requests" := by
  refine ⟨"FastFood Ordering System is ready to serve requests", rfl, ?_⟩
  exact ⟨"FastFood Ordering System is ", "", by decide⟩

/-- C6: for every worker argument, the interrupt-hook and the abort-hook
each append exactly one log line, and the two appended lines are distinct. -/
theorem worker_hooks_one_distinct_line (w : Worker) :
    (worker_int w).log.lines = w.log.lines ++
        [{ level := LogLevel.info, msg := "Worker received INT or QUIT signal" }] ∧
      (worker_abort w).log.lines = w.log.lines ++
        [{ level := LogLevel.info, msg := "Worker received SIGABRT signal" }] ∧
      ({ level := LogLevel.info,
          msg := "Worker received INT or QUIT signal" } : LogLine) ≠
        { level := LogLevel.info, msg := "Worker received SIGABRT signal" } := by
  exact ⟨rfl, rfl, by decide⟩

/-- C9: each hook is total (no error path), leaves every non-log field of
its argument unchanged (no return value beyond the logging effect, no state
of its own), and only appends a single info line to the log. -/
theorem hooks_effect_only_logging (s : Server) (w : Worker) :
    ((when_ready s).app_name = s.app_name ∧
      ∃ m, (when_ready s).log.lines =
        s.log.lines ++ [{ level := LogLevel.info, msg := m }]) ∧
    ((worker_int w).pid = w.pid ∧
      ∃ m, (worker_int w).log.lines =
        w.log.lines ++ [{ level := LogLevel.info, msg := m }]) ∧
    ((worker_abort w).pid = w.pid ∧
      ∃ m, (worker_abort w).log.lines =
        w.log.lines ++ [{ level := LogLevel.info, msg := m }]) :=
  ⟨⟨rfl, _, rfl⟩, ⟨rfl, _, rfl⟩, ⟨rfl, _, rfl⟩⟩

/-- C10: the line each hook appends is independent of the argument: the
suffix a hook adds to the log is the same for any two servers
(respectively workers), so no information from the argument flows into
the log text. -/
theorem hooks_log_argument_independent (s₁ s₂ : Server) (w₁ w₂ : Worker) :
    (when_ready s₁).log.lines.drop s₁.log.lines.length =
        (when_ready s₂).log.lines.drop s₂.log.lines.length ∧
      (worker_int w₁).log.lines.drop w₁.log.lines.length =
        (worker_int w₂).log.lines.drop w₂.log.lines.length ∧
      (worker_abort w₁).log.lines.drop w₁.log.lines.length =
        (worker_abort w₂).log.lines.drop w₂.log.lines.length := by
  refine ⟨?_, ?_, ?_⟩ <;>
    simp [when_ready, worker_int, worker_abort, Logger.info]

/-- C1: with neither `GUNICORN_WORKERS` nor `GUNICORN_THREADS` set, loading
succeeds and the configuration has workers = 2 * cpu + 1 and threads = 2. -/
theorem default_workers_threads (env : String → Option String) (cpu : Nat)
    (hw : env "GUNICORN_WORKERS" = none) (ht : env "GUNICORN_THREADS" = none) :
    ∃ cfg, loadConfig env cpu = some cfg ∧
      cfg.workers = 2 * (Int.ofNat cpu) + 1 ∧ cfg.threads = 2 := by
  refine ⟨mkConfig ((Int.ofNat cpu) * 2 + 1) 2, ?_, ?_, rfl⟩
  · unfold loadConfig loadWorkers loadThreads
    rw [hw, ht]
  · show (Int.ofNat cpu) * 2 + 1 = 2 * (Int.ofNat cpu) + 1
    ring

/-- Witness for C1: the empty environment with 4 detected CPUs. -/
theorem default_workers_threads_witness :
    ∃ cfg, loadConfig envEmpty 4 = some cfg ∧
      cfg.workers = 2 * (Int.ofNat 4) + 1 ∧ cfg.threads = 2 :=
  default_workers_threads envEmpty 4 rfl rfl

/-- C2: when the environment supplies values for both variables and both
parse as integers, loading succeeds and workers and threads equal the
parsed integers. -/
theorem override_workers_threads (env : String → Option String) (cpu : Nat)
    (sw st : String) (w t : Int)
    (hw : env "GUNICORN_WORKERS" = some sw) (hpw : pyInt sw = some w)
    (ht : env "GUNICORN_THREADS" = some st) (hpt : pyInt st = some t) :
    ∃ cfg, loadConfig env cpu = some cfg ∧
      cfg.workers = w ∧ cfg.threads = t := by
  refine ⟨mkConfig w t, ?_, rfl, rfl⟩
  simp only [loadConfig, loadWorkers, loadThreads, hw, ht, hpw, hpt]

/-- Witness for C2: `GUNICORN_WORKERS=4`, `GUNICORN_THREADS=8`. -/
theorem override_workers_threads_witness :
    ∃ cfg, loadConfig envFourEight 1 = some cfg ∧
      cfg.workers = 4 ∧ cfg.threads = 8 :=
  override_workers_threads envFourEight 1 "4" "8" 4 8 rfl (by decide) rfl
    (by decide)

/-- Counterexample to C3: the loader accepts the environment that sets
`GUNICORN_THREADS=0` (with 1 CPU), yet the constructed configuration has
thread count 0, not strictly greater than 0. -/
theorem loader_accepts_zero_threads :
    ¬ (∀ cfg, loadConfig envThreadsZero 1 = some cfg → 0 < cfg.threads) := by
  intro h
  exact absurd (h (mkConfig 3 0) (by decide)) (by decide)

/-- C3 (amended): the loader performs no bounds validation; workers and
threads are strictly positive provided every environment value it accepts
parses to a strictly positive integer, and the defaults used when a
variable is unset are always strictly positive. -/
theorem positive_counts_of_positive_values (env : String → Option String)
    (cpu : Nat) (cfg : ServerConfig) (h : loadConfig env cpu = some cfg)
    (hw : ∀ s, env "GUNICORN_WORKERS" = some s →
      ∃ n, pyInt s = some n ∧ 0 < n)
    (ht : ∀ s, env "GUNICORN_THREADS" = some s →
      ∃ n, pyInt s = some n ∧ 0 < n) :
    0 < cfg.workers ∧ 0 < cfg.threads := by
  obtain ⟨w, t, hlw, hlt, rfl⟩ := loadConfig_eq_some h
  constructor
  · show 0 < w
    unfold loadWorkers at hlw
    cases hew : env "GUNICORN_WORKERS" with
    | none =>
      rw [hew] at hlw
      change some ((Int.ofNat cpu) * 2 + 1) = some w at hlw
      have hw' := Option.some.inj hlw
      have hnn : 0 ≤ Int.ofNat cpu := Int.ofNat_nonneg cpu
      omega
    | some s =>
      rw [hew] at hlw
      change pyInt s = some w at hlw
      obtain ⟨n, hn, hpos⟩ := hw s hew
      rw [hn] at hlw
      have := Option.some.inj hlw
      omega
  · show 0 < t
    unfold loadThreads at hlt
    cases het : env "GUNICORN_THREADS" with
    | none =>
      rw [het] at hlt
      change some 2 = some t at hlt
      have ht' := Option.some.inj hlt
      omega
    | some s =>
      rw [het] at hlt
      change pyInt s = some t at hlt
      obtain ⟨n, hn, hpos⟩ := ht s het
      rw [hn] at hlt
      have := Option.some.inj hlt
      omega

/-- Witness for the amended C3: the empty environment with 1 CPU yields the
configuration with workers = 3 and threads = 2, both positive. -/
theorem positive_counts_witness :
    0 < (mkConfig 3 2).workers ∧ 0 < (mkConfig 3 2).threads :=
  positive_counts_of_positive_values envEmpty 1 (mkConfig 3 2) rfl
    (fun _ hc => nomatch hc) (fun _ hc => nomatch hc)

/-- C4: loading fails exactly when some provided environment value fails
numeric coercion; there is no other error path. -/
theorem load_fails_iff_nonnumeric (env : String → Option String) (cpu : Nat) :
    loadConfig env cpu = none ↔
      (∃ s, env "GUNICORN_WORKERS" = some s ∧ pyInt s = none) ∨
      (∃ s, env "GUNICORN_THREADS" = some s ∧ pyInt s = none) := by
  unfold loadConfig loadWorkers loadThreads
  cases hew : env "GUNICORN_WORKERS" with
  | none =>
    cases het : env "GUNICORN_THREADS" with
    | none => simp [hew, het]
    | some st => cases hpt : pyInt st <;> simp [hew, het, hpt]
  | some sw =>
    cases hpw : pyInt sw with
    | none => simp [hew, hpw]
    | some w =>
      cases het : env "GUNICORN_THREADS" with
      | none => simp [hew, het, hpw]
      | some st => cases hpt : pyInt st <;> simp [hew, het, hpw, hpt]

/-- C7: every successfully loaded configuration carries the fixed
constants: bind "0.0.0.0:5000", backlog 2048, worker_connections 1000,
timeout 30, keepalive 2, limit_request_line 4096, limit_request_fields 100,
limit_request_field_size 8190, for every environment and CPU count. -/
theorem fixed_options (env : String → Option String) (cpu : Nat)
    (cfg : ServerConfig) (h : loadConfig env cpu = some cfg) :
    cfg.bind = "0.0.0.0:5000" ∧ cfg.backlog = 2048 ∧
      cfg.worker_connections = 1000 ∧ cfg.timeout = 30 ∧
      cfg.keepalive = 2 ∧ cfg.limit_request_line = 4096 ∧
      cfg.limit_request_fields = 100 ∧
      cfg.limit_request_field_size = 8190 := by
  obtain ⟨w, t, _, _, rfl⟩ := loadConfig_eq_some h
  exact ⟨rfl, rfl, rfl, rfl, rfl, rfl, rfl, rfl⟩

/-- Witness for C7: the configuration loaded from the empty environment
with 1 CPU. -/
theorem fixed_options_witness :
    (mkConfig 3 2).bind = "0.0.0.0:5000" ∧ (mkConfig 3 2).backlog = 2048 ∧
      (mkConfig 3 2).worker_connections = 1000 ∧
      (mkConfig 3 2).timeout = 30 ∧ (mkConfig 3 2).keepalive = 2 ∧
      (mkConfig 3 2).limit_request_line = 4096 ∧
      (mkConfig 3 2).limit_request_fields = 100 ∧
      (mkConfig 3 2).limit_request_field_size = 8190 :=
  fixed_options envEmpty 1 (mkConfig 3 2) rfl

/-- C8: every successfully loaded configuration logs access and error
streams to "-" (standard output/error) at level "info", and its access-log
format is the fixed line containing, in order, the client IP (h), remote
logname (l), user (u), timestamp (t), request line (r), status (s),
bytes (b), referer (f) and user-agent (a) fields. -/
theorem logging_options (env : String → Option String) (cpu : Nat)
    (cfg : ServerConfig) (h : loadConfig env cpu = some cfg) :
    cfg.accesslog = "-" ∧ cfg.errorlog = "-" ∧ cfg.loglevel = "info" ∧
      cfg.access_log_format =
        "%(h)s %(l)s %(u)s %(t)s \"%(r)s\" %(s)s %(b)s \"%(f)s\" \"%(a)s\"" ∧
      containsInOrder cfg.access_log_format
        ["%(h)s", "%(l)s", "%(u)s", "%(t)s", "%(r)s", "%(s)s", "%(b)s",
          "%(f)s", "%(a)s"] := by
  obtain ⟨w, t, _, _, rfl⟩ := loadConfig_eq_some h
  refine ⟨rfl, rfl, rfl, rfl, ?_⟩
  show containsInOrder
    "%(h)s %(l)s %(u)s %(t)s \"%(r)s\" %(s)s %(b)s \"%(f)s\" \"%(a)s\""
    ["%(h)s", "%(l)s", "%(u)s", "%(t)s", "%(r)s", "%(s)s", "%(b)s",
      "%(f)s", "%(a)s"]
  refine ⟨"", " %(l)s %(u)s %(t)s \"%(r)s\" %(s)s %(b)s \"%(f)s\" \"%(a)s\"",
    by decide, ?_⟩
  refine ⟨" ", " %(u)s %(t)s \"%(r)s\" %(s)s %(b)s \"%(f)s\" \"%(a)s\"",
    by decide, ?_⟩
  refine ⟨" ", " %(t)s \"%(r)s\" %(s)s %(b)s \"%(f)s\" \"%(a)s\"",
    by decide, ?_⟩
  refine ⟨" ", " \"%(r)s\" %(s)s %(b)s \"%(f)s\" \"%(a)s\"", by decide, ?_⟩
  refine ⟨" \"", "\" %(s)s %(b)s \"%(f)s\" \"%(a)s\"", by decide, ?_⟩
  refine ⟨"\" ", " %(b)s \"%(f)s\" \"%(a)s\"", by decide, ?_⟩
  refine ⟨" ", " \"%(f)s\" \"%(a)s\"", by decide, ?_⟩
  refine ⟨" \"", "\" \"%(a)s\"", by decide, ?_⟩
  exact ⟨"\" \"", "\"", by decide, trivial⟩

/-- Witness for C8: the configuration loaded from the empty environment
with 2 CPUs. -/
theorem logging_options_witness :
    (mkConfig 5 2).accesslog = "-" ∧ (mkConfig 5 2).errorlog = "-" ∧
      (mkConfig 5 2).loglevel = "info" ∧
      (mkConfig 5 2).access_log_format =
        "%(h)s %(l)s %(u)s %(t)s \"%(r)s\" %(s)s %(b)s \"%(f)s\" \"%(a)s\"" ∧
      containsInOrder (mkConfig 5 2).access_log_format
        ["%(h)s", "%(l)s", "%(u)s", "%(t)s", "%(r)s", "%(s)s", "%(b)s",
          "%(f)s", "%(a)s"] :=
  logging_options envEmpty 2 (mkConfig 5 2) rfl
